import Mathlib

/-!
Verification of the IndiCoin buy-limit predictor ("Innov" repository).

The repository contains two near-duplicate prediction modules, `src/lstm.py`
and `src/app.py`.  Both expose the same pipeline: a feature engine
(`calculate_portfolio_metrics`), a training-time target constructor
(`create_target_allocation`), a sliding-window sequence forecaster, a
rule-based position sizer (`calculate_smart_hard_limit`) and a blender
(`predict_optimal_allocation`).  Float arithmetic in the source is embedded
as exact rational arithmetic over `ℚ`; the places where IEEE float special
values (NaN, ∞) are observable are modelled explicitly with `Option ℚ`,
`none` standing for NaN, as documented at each definition.
-/

namespace Innov

/-- The three risk profile keys of `RISK_PROFILES` (both modules, lines 27-31). -/
inductive RiskProfile
  | conservative
  | moderate
  | aggressive
deriving DecidableEq, Repr

open RiskProfile

/-- The `RISK_PROFILES[p]["max_crypto_allocation"]` entry (lstm.py/app.py lines 27-32). -/
def maxCryptoAllocation : RiskProfile → ℚ
  | conservative => 15/100
  | moderate => 25/100
  | aggressive => 40/100

/-- The `RISK_PROFILES[p]["volatility_penalty"]` entry (lstm.py/app.py lines 27-32). -/
def volatilityPenalty : RiskProfile → ℚ
  | conservative => 2
  | moderate => 3/2
  | aggressive => 1

/-- lstm.py line 92: `reduction_multiplier = {"conservative": 0.5, "moderate": 0.3, "aggressive": 0.2}[risk_profile]`. -/
def reductionMultiplier : RiskProfile → ℚ
  | conservative => 1/2
  | moderate => 3/10
  | aggressive => 1/5

/-- lstm.py line 102: sentiment factors when `market_sentiment < 20`. -/
def sentimentFactorLow : RiskProfile → ℚ
  | conservative => 11/10
  | moderate => 6/5
  | aggressive => 13/10

/-- lstm.py line 105: sentiment factors when `market_sentiment > 80`. -/
def sentimentFactorHigh : RiskProfile → ℚ
  | conservative => 1/2
  | moderate => 7/10
  | aggressive => 4/5

/-- lstm.py line 111: trend factors when `btc_trend > 0.15`. -/
def trendFactorUp : RiskProfile → ℚ
  | conservative => 3/5
  | moderate => 4/5
  | aggressive => 9/10

/-- lstm.py line 114: trend factors when `btc_trend < -0.15`. -/
def trendFactorDown : RiskProfile → ℚ
  | conservative => 21/20
  | moderate => 11/10
  | aggressive => 6/5

/-- lstm.py lines 121-125: `profile_max_trade` fractions of `user_balance`. -/
def profileMaxTradeFraction : RiskProfile → ℚ
  | conservative => 1/10
  | moderate => 1/5
  | aggressive => 7/20

/-- app.py lines 167-171: `profile_trade_caps` (keyed by `risk_profile.title()`). -/
def profileTradeCapApp : RiskProfile → ℚ
  | conservative => 15/100
  | moderate => 20/100
  | aggressive => 40/100

/-- lstm.py lines 90-96 / the `reduction_factor` local of `calculate_smart_hard_limit`:
if `existing_btc_holdings > 0`, the exposure of the existing BTC position
(valued at `btc_usd` and converted at `usd_inr`) relative to `user_balance`
is capped at 2.0 and turned into a multiplicative reduction, floored at 0.1;
otherwise the factor is 1.0. -/
def reductionFactorL (btcUsd usdInr userBalance existingBtcHoldings : ℚ)
    (riskProfile : RiskProfile) : ℚ :=
  if existingBtcHoldings > 0 then
    max (1/10)
      (1 - min (existingBtcHoldings * btcUsd / usdInr / userBalance) 2
            * reductionMultiplier riskProfile)
  else 1

/-- lstm.py line 99 / app.py line 145:
`volatility_factor = 1 / (1 + profile["volatility_penalty"] * btc_volatility)`. -/
def volatilityFactorL (riskProfile : RiskProfile) (btcVolatility : ℚ) : ℚ :=
  1 / (1 + volatilityPenalty riskProfile * btcVolatility)

/-- lstm.py lines 101-108: the `sentiment_factor` local. -/
def sentimentFactorL (riskProfile : RiskProfile) (marketSentiment : ℚ) : ℚ :=
  if marketSentiment < 20 then sentimentFactorLow riskProfile
  else if marketSentiment > 80 then sentimentFactorHigh riskProfile
  else 1

/-- lstm.py lines 110-117: the `trend_factor` local. -/
def trendFactorL (riskProfile : RiskProfile) (btcTrend : ℚ) : ℚ :=
  if btcTrend > 3/20 then trendFactorUp riskProfile
  else if btcTrend < -(3/20) then trendFactorDown riskProfile
  else 1

/-- lstm.py lines 81-128, `calculate_smart_hard_limit`.  The argument order is
the source's; `current_btc_price` is accepted but never read by the body. -/
def calculateSmartHardLimit (btcVolatility marketSentiment btcTrend currentBtcPrice
    btcUsd usdInr userBalance existingBtcHoldings : ℚ)
    (riskProfile : RiskProfile) : ℚ :=
  let baseCryptoAllocation := userBalance * maxCryptoAllocation riskProfile
  let reductionFactor := reductionFactorL btcUsd usdInr userBalance existingBtcHoldings riskProfile
  let adjustedAllocation := baseCryptoAllocation * reductionFactor
  let volatilityFactor := volatilityFactorL riskProfile btcVolatility
  let sentimentFactor := sentimentFactorL riskProfile marketSentiment
  let trendFactor := trendFactorL riskProfile btcTrend
  let finalAllocation := adjustedAllocation * volatilityFactor * sentimentFactor * trendFactor
  let profileMaxTrade := userBalance * profileMaxTradeFraction riskProfile
  let finalLimit := min finalAllocation profileMaxTrade
  max 0 finalLimit

/-- app.py lines 133-139: the `reduction_factor` local of the app.py variant —
fixed multiplier 0.3 and floor 0.2 for every profile. -/
def reductionFactorApp (btcUsd usdInr userBalance existingBtcHoldings : ℚ) : ℚ :=
  if existingBtcHoldings > 0 then
    max (2/10) (1 - min (existingBtcHoldings * btcUsd / usdInr / userBalance) 2 * (3/10))
  else 1

/-- app.py lines 148-153: global (profile-independent) sentiment factor. -/
def sentimentFactorApp (marketSentiment : ℚ) : ℚ :=
  if marketSentiment < 20 then 12/10
  else if marketSentiment > 80 then 7/10
  else 1

/-- app.py lines 156-161: global (profile-independent) trend factor. -/
def trendFactorApp (btcTrend : ℚ) : ℚ :=
  if btcTrend > 3/20 then 8/10
  else if btcTrend < -(3/20) then 11/10
  else 1

/-- app.py lines 114-175, `calculate_smart_hard_limit` (the app.py variant).
`current_btc_price` is accepted but never read by the body. -/
def calculateSmartHardLimitApp (btcVolatility marketSentiment btcTrend currentBtcPrice
    btcUsd usdInr userBalance existingBtcHoldings : ℚ)
    (riskProfile : RiskProfile) : ℚ :=
  let baseCryptoAllocation := userBalance * maxCryptoAllocation riskProfile
  let reductionFactor := reductionFactorApp btcUsd usdInr userBalance existingBtcHoldings
  let adjustedAllocation := baseCryptoAllocation * reductionFactor
  let volatilityFactor := volatilityFactorL riskProfile btcVolatility
  let sentimentFactor := sentimentFactorApp marketSentiment
  let trendFactor := trendFactorApp btcTrend
  let finalAllocation := adjustedAllocation * volatilityFactor * sentimentFactor * trendFactor
  let maxSingleTrade := userBalance * profileTradeCapApp riskProfile
  let finalLimit := min finalAllocation maxSingleTrade
  max 0 finalLimit

/-- The subscript `RISK_PROFILES[risk_profile]` (lstm.py line 84, app.py line 121):
`some p` when the key has a static configuration entry, `none` when the lookup
raises `KeyError`. -/
def lookupProfile (s : String) : Option RiskProfile :=
  if s = "conservative" then some conservative
  else if s = "moderate" then some moderate
  else if s = "aggressive" then some aggressive
  else none

/-- lstm.py line 262 / app.py line 356:
`first_time_bonus = {"Conservative": 1.2, "Moderate": 1.3, "Aggressive": 1.4}`,
indexed with `risk_profile.title()`. -/
def firstTimeBonus : RiskProfile → ℚ
  | conservative => 12/10
  | moderate => 13/10
  | aggressive => 14/10

/-- lstm.py line 269 / app.py line 364: the `except` branch of
`predict_optimal_allocation` computes
`{"conservative": 0.10, "moderate": 0.15, "aggressive": 0.25}.get(risk_profile, 0.15)`. -/
def fallbackFactor (s : String) : ℚ :=
  if s = "conservative" then 1/10
  else if s = "moderate" then 3/20
  else if s = "aggressive" then 1/4
  else 3/20

/-- lstm.py lines 234-252: the value bound to `predicted_allocation`.
The tensorflow artifact's numeric output is modelled by the oracle argument
`inference : Option ℚ`; `none` stands for any exception raised while loading
the artifact or running inference (caught at lines 248-250, yielding 0.15).
When the model is unavailable or the history is empty (line 251-252), or no
training window exists (`len(X_seq) = 0`, lines 246-247), the value is 0.15. -/
def lstmPredictedAllocation (modelAvailable : Bool) (histLen xSeqLen : ℕ)
    (inference : Option ℚ) : ℚ :=
  if modelAvailable ∧ histLen > 0 then
    if xSeqLen > 0 then
      match inference with
      | some v => v
      | none => 3/20
    else 3/20
  else 3/20

/-- lstm.py lines 259-265: the blending tail of `predict_optimal_allocation` —
`final_limit = min(smart_limit, lstm_based_limit)`, multiplied by the profile's
first-time bonus exactly when `first_time`, then `max(0.0, final_limit)`. -/
def blendLSTM (smartLimit lstmBasedLimit : ℚ) (firstTime : Bool)
    (riskProfile : RiskProfile) : ℚ :=
  let finalLimit := min smartLimit lstmBasedLimit
  let finalLimit := if firstTime then finalLimit * firstTimeBonus riskProfile else finalLimit
  max 0 finalLimit

/-- lstm.py lines 227-270, `predict_optimal_allocation`.  The module-level
market state (`df_hist` tail values, `model_available`, `X_seq`) is passed
explicitly.  A `risk_profile` key absent from `RISK_PROFILES` makes
`calculate_smart_hard_limit` raise `KeyError` at line 84; the blanket
`except` at lines 267-270 catches it and returns
`user_balance * profile_factor` instead of surfacing an error. -/
def predictOptimalAllocationLSTM (modelAvailable : Bool) (histLen xSeqLen : ℕ)
    (inference : Option ℚ)
    (currentVolatility currentSentiment currentTrend btcUsd usdInr
      userBalance existingBtcHoldings : ℚ)
    (firstTime : Bool) (riskProfile : String) : ℚ :=
  match lookupProfile riskProfile with
  | none => userBalance * fallbackFactor riskProfile
  | some profile =>
    let predictedAllocation := lstmPredictedAllocation modelAvailable histLen xSeqLen inference
    let smartLimit := calculateSmartHardLimit currentVolatility currentSentiment currentTrend
      btcUsd btcUsd usdInr userBalance existingBtcHoldings profile
    let lstmBasedLimit := userBalance * predictedAllocation
    blendLSTM smartLimit lstmBasedLimit firstTime profile

/-- app.py lines 349-359: the blending tail of the app.py
`predict_optimal_allocation`.  Line 356 defines the `first_time_bonus` dict
only inside `if first_time:`, but line 358 multiplies by
`first_time_bonus[risk_profile.title()]` unconditionally; with
`first_time=False` the name is undefined and a `NameError` is raised
(`Except.error ()` here). -/
def blendApp (smartLimit lstmBasedLimit : ℚ) (firstTime : Bool)
    (riskProfile : RiskProfile) : Except Unit ℚ :=
  let finalLimit := min smartLimit lstmBasedLimit
  if firstTime then Except.ok (max 0 (finalLimit * firstTimeBonus riskProfile))
  else Except.error ()

/-- app.py lines 304-365, `predict_optimal_allocation`.  Its try-body is
`blendApp` applied to the smart limit and the forecaster amount; any
exception — the `KeyError` of an unknown profile, or the `NameError` of
line 358 when `first_time` is false — is caught at lines 361-365, which
return `user_balance * profile_factor`. -/
def predictOptimalAllocationApp (modelAvailable : Bool) (histLen xSeqLen : ℕ)
    (inference : Option ℚ)
    (currentVolatility currentSentiment currentTrend btcUsd usdInr
      userBalance existingBtcHoldings : ℚ)
    (firstTime : Bool) (riskProfile : String) : ℚ :=
  let result : Except Unit ℚ :=
    match lookupProfile riskProfile with
    | none => Except.error ()
    | some profile =>
      let predictedAllocation := lstmPredictedAllocation modelAvailable histLen xSeqLen inference
      let smartLimit := calculateSmartHardLimitApp currentVolatility currentSentiment currentTrend
        btcUsd btcUsd usdInr userBalance existingBtcHoldings profile
      let lstmBasedLimit := userBalance * predictedAllocation
      blendApp smartLimit lstmBasedLimit firstTime profile
  match result with
  | Except.ok v => v
  | Except.error _ => userBalance * fallbackFactor riskProfile

/-- lstm.py lines 162-167, `make_windows(X, y, window)`: for each
`i in range(window, len(X))` append `X[i-window:i]` and `y[i]`. -/
def makeWindows (X : List (List ℚ)) (y : List ℚ) (window : ℕ) :
    List (List (List ℚ)) × List ℚ :=
  (((List.range X.length).drop window).map (fun i => (X.drop (i - window)).take window),
   ((List.range X.length).drop window).map (fun i => y.getD i 0))

/-- lstm.py lines 149-211: the module-level `model_available` flag.  It stays
`false` when `len(df_hist) < 60` (line 151) or fewer than 20 windows exist
(line 172/208); otherwise it records whether saving the trained artifact
succeeded (lines 195-201). -/
def modelAvailableFlag (histLen xSeqLen : ℕ) (saveOk : Bool) : Bool :=
  if histLen < 60 then false
  else if 20 ≤ xSeqLen then saveOk
  else false

/-- The value of `df_hist["BTC_USD"].diff()` at row `i ≥ 1`. -/
def priceDelta (ps : List ℚ) (i : ℕ) : ℚ :=
  ps.getD i 0 - ps.getD (i - 1) 0

/-- lstm.py line 75 / app.py line 104: one entry of
`delta.where(delta > 0, 0)`.  At row 0 `diff()` yields NaN, and
`NaN > 0` is false, so `where` replaces it by 0. -/
def gainVal (ps : List ℚ) (i : ℕ) : ℚ :=
  if i = 0 then 0 else max (priceDelta ps i) 0

/-- lstm.py line 76 / app.py line 105: one entry of
`-delta.where(delta < 0, 0)` — the magnitude of a negative delta, else 0;
the row-0 NaN again becomes 0. -/
def lossVal (ps : List ℚ) (i : ℕ) : ℚ :=
  if i = 0 then 0 else max (-priceDelta ps i) 0

/-- The value of `gain.rolling(14).mean()` at row `i`: defined (`some`) once 14
observations exist, i.e. for `13 ≤ i < len`; NaN (`none`) before that. -/
def avgGain (ps : List ℚ) (i : ℕ) : Option ℚ :=
  if 13 ≤ i ∧ i < ps.length then
    some ((((List.range 14).map (fun k => gainVal ps (i - k))).sum) / 14)
  else none

/-- The value of `loss.rolling(14).mean()` at row `i`. -/
def avgLoss (ps : List ℚ) (i : ℕ) : Option ℚ :=
  if 13 ≤ i ∧ i < ps.length then
    some ((((List.range 14).map (fun k => lossVal ps (i - k))).sum) / 14)
  else none

/-- lstm.py lines 77-78 / app.py lines 106-107:
`rs = gain / loss; sentiment = 100 - 100 / (1 + rs)` under IEEE float
semantics.  `gain` and `loss` are means of non-negative terms.  When
`loss ≠ 0` the expression is ordinary arithmetic.  When `loss = 0` and
`gain ≠ 0` (hence `gain > 0`), `rs = +∞` and `100 − 100/(1 + ∞) = 100`
exactly.  When both are 0, `rs = NaN` and the sentiment is NaN (`none`),
so `dropna()` removes the row from the output. -/
def marketSentimentAt (ps : List ℚ) (i : ℕ) : Option ℚ :=
  match avgGain ps i, avgLoss ps i with
  | some g, some l =>
    if l = 0 then (if g = 0 then none else some 100)
    else some (100 - 100 / (1 + g / l))
  | _, _ => none

/-- Insertion into a sorted list (ascending). -/
def sortedInsert (x : ℚ) : List ℚ → List ℚ
  | [] => [x]
  | y :: ys => if x ≤ y then x :: y :: ys else y :: sortedInsert x ys

/-- Ascending insertion sort, used to model the sorted order underlying
pandas' quantile computation. -/
def sortAscending (xs : List ℚ) : List ℚ :=
  xs.foldr sortedInsert []

/-- pandas `Series.quantile(q)` (linear interpolation): with the `m` non-NaN
values sorted ascending, the value at fractional position `q·(m−1)`,
linearly interpolated between the two neighbouring order statistics. -/
def quantileQ (xs : List ℚ) (q : ℚ) : ℚ :=
  let s := sortAscending xs
  if s.length = 0 then 0
  else
    let pos := q * ((s.length : ℚ) - 1)
    let lo := Int.toNat ⌊pos⌋
    let vlo := s.getD lo 0
    vlo + (pos - (lo : ℚ)) * (s.getD (lo + 1) vlo - vlo)

/-- lstm.py line 134 / app.py line 186:
`df['Future_Return'][i] = df['BTC_USD'].shift(-lookforward)[i] / df['BTC_USD'][i] - 1`,
NaN (`none`) for the trailing `lookforward` rows where the shift runs off
the end of the series. -/
def futureReturn (ps : List ℚ) (lookforward i : ℕ) : Option ℚ :=
  if i + lookforward < ps.length then
    some (ps.getD (i + lookforward) 0 / ps.getD i 0 - 1)
  else none

/-- lstm.py line 135 / app.py line 187:
`df['Future_Vol'][i] = df['BTC_Return'].rolling(lookforward).std().shift(-lookforward)[i]`,
the sample standard deviation of the returns at rows `i+1 … i+lookforward`;
NaN (`none`) for the trailing `lookforward` rows.  The standard deviation is
irrational in general, so its numeric evaluation is abstracted as the
function argument `std`; every property proved below holds for every `std`,
in particular for the true sample standard deviation. -/
def futureVol (std : List ℚ → ℚ) (rets : List ℚ) (lookforward i : ℕ) : Option ℚ :=
  if i + lookforward < rets.length then
    some (std ((rets.drop (i + 1)).take lookforward))
  else none

/-- lstm.py line 136 / app.py line 191:
`sharpe_proxy = df['Future_Return'] / (df['Future_Vol'] + 0.01)`;
NaN (`none`) wherever either input is NaN. -/
def sharpeProxy (std : List ℚ → ℚ) (ps rets : List ℚ) (lookforward i : ℕ) : Option ℚ :=
  match futureReturn ps lookforward i, futureVol std rets lookforward i with
  | some fr, some fv => some (fr / (fv + 1/100))
  | _, _ => none

/-- The value of `np.clip(x, lo, hi)`. -/
def npClip (x lo hi : ℚ) : ℚ := min (max x lo) hi

/-- lstm.py lines 133-139 / app.py lines 184-197, `create_target_allocation`:
the `Target_Allocation` column over a frame whose price column is `ps` and
whose `BTC_Return` column is `rets` (both fully populated after the metric
stage's `dropna()`).  The 10th/90th percentiles are taken once over the whole
`sharpe_proxy` column (pandas `quantile` skips NaN), then each defined row is
normalized and clipped to `[0, 0.25]`; NaN rows stay NaN (`none`) and are
removed by the `dropna()` at lstm.py line 142. -/
def createTargetAllocation (std : List ℚ → ℚ) (ps rets : List ℚ)
    (lookforward : ℕ) : List (Option ℚ) :=
  let sharpe := (List.range ps.length).map (fun i => sharpeProxy std ps rets lookforward i)
  let q10 := quantileQ (sharpe.filterMap id) (1/10)
  let q90 := quantileQ (sharpe.filterMap id) (9/10)
  sharpe.map (fun o => o.map (fun s => npClip ((s - q10) / (q90 - q10) * (25/100)) 0 (25/100)))

/-- Modelled from the spec's words (§4.2), for the refinement comparison with
`createTargetAllocation`:
`target = clip((raw_score − P10)/(P90 − P10) × 0.25, 0, 0.25)` with
`raw_score = future_return / (future_vol + 0.01)` and P10/P90 the 10th/90th
percentiles of `raw_score` computed once over the full training set. -/
def specTargetLabel (std : List ℚ → ℚ) (ps rets : List ℚ)
    (lookforward i : ℕ) : Option ℚ :=
  let rawScore := fun j => sharpeProxy std ps rets lookforward j
  let allScores := ((List.range ps.length).map rawScore).filterMap id
  let p10 := quantileQ allScores (1/10)
  let p90 := quantileQ allScores (9/10)
  (rawScore i).map (fun raw => npClip ((raw - p10) / (p90 - p10) * (25/100)) 0 (25/100))

lemma maxCryptoAllocation_pos (p : RiskProfile) : 0 < maxCryptoAllocation p := by
  cases p <;> norm_num [maxCryptoAllocation]

lemma volatilityPenalty_pos (p : RiskProfile) : 0 < volatilityPenalty p := by
  cases p <;> norm_num [volatilityPenalty]

lemma reductionMultiplier_pos (p : RiskProfile) : 0 < reductionMultiplier p := by
  cases p <;> norm_num [reductionMultiplier]

lemma profileMaxTradeFraction_pos (p : RiskProfile) : 0 < profileMaxTradeFraction p := by
  cases p <;> norm_num [profileMaxTradeFraction]

lemma profileTradeCapApp_pos (p : RiskProfile) : 0 < profileTradeCapApp p := by
  cases p <;> norm_num [profileTradeCapApp]

lemma sentimentFactorL_pos (p : RiskProfile) (s : ℚ) : 0 < sentimentFactorL p s := by
  unfold sentimentFactorL
  split_ifs <;> cases p <;> norm_num [sentimentFactorLow, sentimentFactorHigh]

lemma trendFactorL_pos (p : RiskProfile) (t : ℚ) : 0 < trendFactorL p t := by
  unfold trendFactorL
  split_ifs <;> cases p <;> norm_num [trendFactorUp, trendFactorDown]

lemma sentimentFactorApp_pos (s : ℚ) : 0 < sentimentFactorApp s := by
  unfold sentimentFactorApp; split_ifs <;> norm_num

lemma trendFactorApp_pos (t : ℚ) : 0 < trendFactorApp t := by
  unfold trendFactorApp; split_ifs <;> norm_num

lemma reductionFactorL_pos (btcUsd usdInr bal hold : ℚ) (p : RiskProfile) :
    0 < reductionFactorL btcUsd usdInr bal hold p := by
  unfold reductionFactorL
  split_ifs
  · exact lt_of_lt_of_le (by norm_num) (le_max_left _ _)
  · norm_num

lemma volatilityFactorL_pos (p : RiskProfile) (v : ℚ) (hv : 0 ≤ v) :
    0 < volatilityFactorL p v := by
  unfold volatilityFactorL
  have : 0 < 1 + volatilityPenalty p * v := by
    have := mul_nonneg (le_of_lt (volatilityPenalty_pos p)) hv
    linarith
  exact one_div_pos.mpr this

/-- The body of lstm.py's `calculate_smart_hard_limit` as a closed formula. -/
lemma smartLimit_eq (v s t pr bu ui bal hold : ℚ) (p : RiskProfile) :
    calculateSmartHardLimit v s t pr bu ui bal hold p =
      max 0 (min (bal * maxCryptoAllocation p * reductionFactorL bu ui bal hold p
        * volatilityFactorL p v * sentimentFactorL p s * trendFactorL p t)
        (bal * profileMaxTradeFraction p)) := rfl

/-- The body of app.py's `calculate_smart_hard_limit` as a closed formula. -/
lemma smartLimitApp_eq (v s t pr bu ui bal hold : ℚ) (p : RiskProfile) :
    calculateSmartHardLimitApp v s t pr bu ui bal hold p =
      max 0 (min (bal * maxCryptoAllocation p * reductionFactorApp bu ui bal hold
        * volatilityFactorL p v * sentimentFactorApp s * trendFactorApp t)
        (bal * profileTradeCapApp p)) := rfl

/-- C2: for every valid risk profile and every input with spending_balance > 0,
existing_holdings ≥ 0 and volatility ≥ 0, the Smart Limit Calculator's output
(in both the lstm.py and the app.py variant) is non-negative and at most
spending_balance × profile.max_single_trade_fraction. -/
theorem claim_C2_smart_limit_bounds (p : RiskProfile)
    (vol sent trend price btcUsd usdInr bal hold : ℚ)
    (hbal : 0 < bal) (hhold : 0 ≤ hold) (hvol : 0 ≤ vol) :
    (0 ≤ calculateSmartHardLimit vol sent trend price btcUsd usdInr bal hold p ∧
      calculateSmartHardLimit vol sent trend price btcUsd usdInr bal hold p
        ≤ bal * profileMaxTradeFraction p) ∧
    (0 ≤ calculateSmartHardLimitApp vol sent trend price btcUsd usdInr bal hold p ∧
      calculateSmartHardLimitApp vol sent trend price btcUsd usdInr bal hold p
        ≤ bal * profileTradeCapApp p) := by
  constructor
  · rw [smartLimit_eq]
    refine ⟨le_max_left _ _, max_le ?_ (min_le_right _ _)⟩
    exact le_of_lt (mul_pos hbal (profileMaxTradeFraction_pos p))
  · rw [smartLimitApp_eq]
    refine ⟨le_max_left _ _, max_le ?_ (min_le_right _ _)⟩
    exact le_of_lt (mul_pos hbal (profileTradeCapApp_pos p))

/-- Witness for C2 at a concrete input. -/
theorem claim_C2_smart_limit_bounds_witness :
    0 ≤ calculateSmartHardLimit (3/10) 50 0 100000 100000 83 10000 1
        RiskProfile.moderate ∧
    calculateSmartHardLimit (3/10) 50 0 100000 100000 83 10000 1
        RiskProfile.moderate ≤ 10000 * profileMaxTradeFraction RiskProfile.moderate :=
  (claim_C2_smart_limit_bounds RiskProfile.moderate (3/10) 50 0 100000 100000 83 10000 1
    (by norm_num) (by norm_num) (by norm_num)).1

/-- C1: the lstm.py blender computes `min(smart_limit, balance × fraction)`,
floored at 0, applies the profile's first-time bonus exactly when
`first_time` (after the min), and in particular maps smart_limit = 1000,
forecaster_amount = 1500, first_time = true, moderate profile to 1300.
The app.py variant is the code bug: at the same market state with
`first_time = False` it returns the flat fallback 10000 × 0.15 = 1500
(the `NameError` of its line 358 is swallowed by the `except`), not the
blend `max 0 (min smart_limit forecaster_amount)` the claim describes. -/
theorem claim_C1_blender_first_time_bonus :
    (∀ (smart amt : ℚ) (p : RiskProfile),
      blendLSTM smart amt false p = max 0 (min smart amt)) ∧
    (∀ (smart amt : ℚ) (p : RiskProfile),
      blendLSTM smart amt true p = max 0 (min smart amt * firstTimeBonus p)) ∧
    blendLSTM 1000 1500 true RiskProfile.moderate = 1300 ∧
    predictOptimalAllocationApp true 100 86 (some (1/10)) (3/10) 50 0 100000 83 10000 0
      false ("moderate") = 1500 ∧
    max 0 (min (calculateSmartHardLimitApp (3/10) 50 0 100000 100000 83 10000 0
          RiskProfile.moderate)
        (10000 * lstmPredictedAllocation true 100 86 (some (1/10)))) = 1000 := by
  have happ : predictOptimalAllocationApp true 100 86 (some (1/10)) (3/10) 50 0 100000 83
      10000 0 false ("moderate") = 1500 := by
    simp [predictOptimalAllocationApp, lookupProfile, fallbackFactor, blendApp]
    norm_num
  refine ⟨fun smart amt p => rfl, fun smart amt p => rfl, ?_, happ, ?_⟩
  · norm_num [blendLSTM, firstTimeBonus, min_def, max_def]
  · rw [smartLimitApp_eq]
    norm_num [reductionFactorApp, volatilityFactorL, sentimentFactorApp, trendFactorApp,
      maxCryptoAllocation, volatilityPenalty, profileTradeCapApp, lstmPredictedAllocation,
      min_def, max_def]

/-- C3 counterexample: calling lstm.py's `predict_optimal_allocation` with the
unrecognized profile key "bogus" does not surface an error — it returns the
numeric recommendation 10000 × 0.15 = 1500 computed from the silent
`.get(risk_profile, 0.15)` default of the `except` branch. -/
theorem claim_C3_unknown_profile_counterexample :
    predictOptimalAllocationLSTM false 0 0 none (3/10) 50 0 100000 83 10000 0
      false ("bogus") = 1500 := by
  simp [predictOptimalAllocationLSTM, lookupProfile, fallbackFactor]
  norm_num

/-- C3 amended: for every risk_profile string with no static configuration
entry, the core's allocation operation catches the `KeyError` internally and
returns the numeric silent default spending_balance × 0.15, rather than
surfacing an error to its caller. -/
theorem claim_C3_unknown_profile_silent_default
    (ma : Bool) (hl xl : ℕ) (inf : Option ℚ) (v s t bu ui bal hold : ℚ)
    (ft : Bool) (rp : String) (h : lookupProfile rp = none) :
    predictOptimalAllocationLSTM ma hl xl inf v s t bu ui bal hold ft rp
      = bal * (3/20) := by
  unfold predictOptimalAllocationLSTM
  rw [h]
  unfold lookupProfile at h
  unfold fallbackFactor
  split_ifs at h ⊢ <;> simp_all

/-- Witness for the amended C3 at a concrete input. -/
theorem claim_C3_unknown_profile_silent_default_witness :
    predictOptimalAllocationLSTM false 0 0 none 1 50 0 100000 83 20000 0
      false ("balanced") = 20000 * (3/20) :=
  claim_C3_unknown_profile_silent_default false 0 0 none 1 50 0 100000 83 20000 0
    false ("balanced") (by rfl)

/-- C4: with fewer than W+1 = 15 usable feature rows the windower produces no
window and the training gate leaves `model_available` false, so the predict
step yields exactly the rational 0.15 (no exception, no NaN); the same exact
fallback is returned whenever no trained artifact is available, and whenever
inference raises any error (`inference = none`). -/
theorem claim_C4_forecaster_fallback :
    (∀ (X : List (List ℚ)) (y : List ℚ), X.length < 15 →
        (makeWindows X y 14).1.length = 0 ∧ (makeWindows X y 14).2.length = 0) ∧
    (∀ (histLen : ℕ) (saveOk : Bool) (inference : Option ℚ), histLen < 15 →
        modelAvailableFlag histLen (histLen - 14) saveOk = false ∧
        lstmPredictedAllocation (modelAvailableFlag histLen (histLen - 14) saveOk)
          histLen (histLen - 14) inference = 3/20) ∧
    (∀ (histLen xSeqLen : ℕ) (inference : Option ℚ),
        lstmPredictedAllocation false histLen xSeqLen inference = 3/20) ∧
    (∀ (ma : Bool) (histLen xSeqLen : ℕ),
        lstmPredictedAllocation ma histLen xSeqLen none = 3/20) := by
  have hfalse : ∀ (histLen xSeqLen : ℕ) (inference : Option ℚ),
      lstmPredictedAllocation false histLen xSeqLen inference = 3/20 := by
    intro histLen xSeqLen inference
    simp [lstmPredictedAllocation]
  have hflag : ∀ (histLen xSeqLen : ℕ) (saveOk : Bool), histLen < 15 →
      modelAvailableFlag histLen xSeqLen saveOk = false := by
    intro histLen xSeqLen saveOk hlt
    unfold modelAvailableFlag
    rw [if_pos (by omega)]
  refine ⟨?_, ?_, hfalse, ?_⟩
  · intro X y hlen
    constructor <;>
      · simp only [makeWindows, List.length_map, List.length_drop, List.length_range]
        omega
  · intro histLen saveOk inference hlt
    refine ⟨hflag _ _ _ hlt, ?_⟩
    rw [hflag _ _ _ hlt]
    exact hfalse _ _ _
  · intro ma histLen xSeqLen
    unfold lstmPredictedAllocation
    split_ifs <;> rfl

/-- Witness for C4 at concrete inputs. -/
theorem claim_C4_forecaster_fallback_witness :
    (makeWindows ([[1]]) ([1]) 14).1.length = 0 ∧
    lstmPredictedAllocation (modelAvailableFlag 10 (10 - 14) true) 10 (10 - 14)
      (some 1) = 3/20 :=
  ⟨(claim_C4_forecaster_fallback.1 ([[1]]) ([1]) (by decide)).1,
   (claim_C4_forecaster_fallback.2.1 10 true (some 1) (by decide)).2⟩

/-- C9: for spending_balance = 10000, existing_holdings = 0, moderate profile,
volatility = 0.3, sentiment = 50, trend = 0, the Smart Limit Calculator
returns 10000 × 0.25 × 1.0 × (1/(1 + 1.5 × 0.3)) × 1.0 × 1.0 = 50000/29,
which is below the 20% cap of 2000, and within 1 of the spec's rounded
value 1725. -/
theorem claim_C9_scenario_moderate :
    calculateSmartHardLimit (3/10) 50 0 100000 100000 83 10000 0 RiskProfile.moderate
      = 10000 * (25/100) * 1 * (1 / (1 + (3/2) * (3/10))) * 1 * 1 ∧
    calculateSmartHardLimit (3/10) 50 0 100000 100000 83 10000 0 RiskProfile.moderate
      < 10000 * (20/100) ∧
    |calculateSmartHardLimit (3/10) 50 0 100000 100000 83 10000 0 RiskProfile.moderate
      - 1725| < 1 := by
  have h : calculateSmartHardLimit (3/10) 50 0 100000 100000 83 10000 0 RiskProfile.moderate
      = 50000/29 := by
    norm_num [calculateSmartHardLimit, reductionFactorL, volatilityFactorL, sentimentFactorL,
      trendFactorL, maxCryptoAllocation, volatilityPenalty, profileMaxTradeFraction]
  rw [h]
  refine ⟨by norm_num, by norm_num, ?_⟩
  rw [abs_lt]
  constructor <;> norm_num

/-- C10: the Smart Limit Calculator's result does not depend on its
`current_btc_price` parameter, in either module: two calls differing only in
that argument return identical limits. -/
theorem claim_C10_price_independent
    (vol sent trend price1 price2 btcUsd usdInr bal hold : ℚ) (p : RiskProfile) :
    calculateSmartHardLimit vol sent trend price1 btcUsd usdInr bal hold p =
      calculateSmartHardLimit vol sent trend price2 btcUsd usdInr bal hold p ∧
    calculateSmartHardLimitApp vol sent trend price1 btcUsd usdInr bal hold p =
      calculateSmartHardLimitApp vol sent trend price2 btcUsd usdInr bal hold p :=
  ⟨rfl, rfl⟩

lemma reductionFactorL_le_one (bu ui bal hold : ℚ) (p : RiskProfile)
    (hb : 0 < bal) (hu : 0 < ui) (hbtc : 0 ≤ bu) (hh : 0 ≤ hold) :
    reductionFactorL bu ui bal hold p ≤ 1 := by
  unfold reductionFactorL
  split_ifs
  · apply max_le (by norm_num)
    have hval : 0 ≤ hold * bu / ui / bal :=
      div_nonneg (div_nonneg (mul_nonneg hh hbtc) hu.le) hb.le
    have hmin : 0 ≤ min (hold * bu / ui / bal) 2 := le_min hval (by norm_num)
    have := mul_nonneg hmin (reductionMultiplier_pos p).le
    linarith
  · norm_num

lemma reductionFactorL_antitone (bu ui bal : ℚ) (p : RiskProfile)
    (hb : 0 < bal) (hu : 0 < ui) (hbtc : 0 ≤ bu)
    {h1 h2 : ℚ} (h12 : h1 ≤ h2) :
    reductionFactorL bu ui bal h2 p ≤ reductionFactorL bu ui bal h1 p := by
  rcases le_or_lt h2 0 with hc2 | hc2
  · have e2 : reductionFactorL bu ui bal h2 p = 1 := by
      unfold reductionFactorL; rw [if_neg (not_lt.mpr hc2)]
    have e1 : reductionFactorL bu ui bal h1 p = 1 := by
      unfold reductionFactorL; rw [if_neg (not_lt.mpr (le_trans h12 hc2))]
    rw [e1, e2]
  · rcases le_or_lt h1 0 with hc1 | hc1
    · have e1 : reductionFactorL bu ui bal h1 p = 1 := by
        unfold reductionFactorL; rw [if_neg (not_lt.mpr hc1)]
      rw [e1]
      exact reductionFactorL_le_one bu ui bal h2 p hb hu hbtc hc2.le
    · unfold reductionFactorL
      rw [if_pos hc2, if_pos hc1]
      have hr : h1 * bu / ui / bal ≤ h2 * bu / ui / bal := by
        have hnum : h1 * bu ≤ h2 * bu := mul_le_mul_of_nonneg_right h12 hbtc
        exact div_le_div_of_nonneg_right (div_le_div_of_nonneg_right hnum hu.le) hb.le
      have hr2 : min (h1 * bu / ui / bal) 2 ≤ min (h2 * bu / ui / bal) 2 :=
        min_le_min hr le_rfl
      have hm := mul_le_mul_of_nonneg_right hr2 (reductionMultiplier_pos p).le
      exact max_le_max le_rfl (by linarith)

/-- C5: holding spending balance, volatility, sentiment, trend, prices and
profile fixed (with positive balance and exchange rate and a non-negative
BTC price and volatility), increasing `existing_btc_holdings` never increases
the lstm.py Smart Limit Calculator's output. -/
theorem claim_C5_holdings_antitone (p : RiskProfile)
    (vol sent trend price btcUsd usdInr bal h1 h2 : ℚ)
    (hbal : 0 < bal) (husd : 0 < usdInr) (hbtc : 0 ≤ btcUsd) (hvol : 0 ≤ vol)
    (h12 : h1 ≤ h2) :
    calculateSmartHardLimit vol sent trend price btcUsd usdInr bal h2 p ≤
      calculateSmartHardLimit vol sent trend price btcUsd usdInr bal h1 p := by
  rw [smartLimit_eq, smartLimit_eq]
  apply max_le_max le_rfl
  apply min_le_min _ le_rfl
  have hrf := reductionFactorL_antitone btcUsd usdInr bal p hbal husd hbtc h12
  have hbase : 0 ≤ bal * maxCryptoAllocation p :=
    (mul_pos hbal (maxCryptoAllocation_pos p)).le
  apply mul_le_mul_of_nonneg_right _ (trendFactorL_pos p trend).le
  apply mul_le_mul_of_nonneg_right _ (sentimentFactorL_pos p sent).le
  apply mul_le_mul_of_nonneg_right _ (volatilityFactorL_pos p vol hvol).le
  exact mul_le_mul_of_nonneg_left hrf hbase

/-- Witness for C5 at a concrete input (holdings 1 vs 2 BTC). -/
theorem claim_C5_holdings_antitone_witness :
    calculateSmartHardLimit 1 50 0 100000 100000 83 10000 2 RiskProfile.moderate ≤
      calculateSmartHardLimit 1 50 0 100000 100000 83 10000 1 RiskProfile.moderate :=
  claim_C5_holdings_antitone RiskProfile.moderate 1 50 0 100000 100000 83 10000 1 2
    (by norm_num) (by norm_num) (by norm_num) (by norm_num) (by norm_num)

/-- C6: with the profile's (positive) volatility penalty fixed, increasing
the current volatility over non-negative volatilities strictly decreases
`volatility_factor = 1/(1 + penalty × volatility)`, the factor always lies
in (0, 1], and the final smart limit never increases. -/
theorem claim_C6_volatility_monotone (p : RiskProfile)
    (sent trend price btcUsd usdInr bal hold v1 v2 : ℚ)
    (hv1 : 0 ≤ v1) (h12 : v1 < v2) :
    volatilityFactorL p v2 < volatilityFactorL p v1 ∧
    (0 < volatilityFactorL p v1 ∧ volatilityFactorL p v1 ≤ 1) ∧
    calculateSmartHardLimit v2 sent trend price btcUsd usdInr bal hold p ≤
      calculateSmartHardLimit v1 sent trend price btcUsd usdInr bal hold p := by
  have hpen := volatilityPenalty_pos p
  have hd1 : 0 < 1 + volatilityPenalty p * v1 := by nlinarith
  have hd2 : 1 + volatilityPenalty p * v1 < 1 + volatilityPenalty p * v2 := by nlinarith
  have hstrict : volatilityFactorL p v2 < volatilityFactorL p v1 := by
    unfold volatilityFactorL
    exact one_div_lt_one_div_of_lt hd1 hd2
  refine ⟨hstrict, ⟨volatilityFactorL_pos p v1 hv1, ?_⟩, ?_⟩
  · unfold volatilityFactorL
    rw [div_le_one hd1]
    nlinarith
  · rcases le_or_lt 0 bal with hbal | hbal
    · rw [smartLimit_eq, smartLimit_eq]
      apply max_le_max le_rfl
      apply min_le_min _ le_rfl
      have hadj : 0 ≤ bal * maxCryptoAllocation p
          * reductionFactorL btcUsd usdInr bal hold p :=
        mul_nonneg (mul_nonneg hbal (maxCryptoAllocation_pos p).le)
          (reductionFactorL_pos btcUsd usdInr bal hold p).le
      apply mul_le_mul_of_nonneg_right _ (trendFactorL_pos p trend).le
      apply mul_le_mul_of_nonneg_right _ (sentimentFactorL_pos p sent).le
      exact mul_le_mul_of_nonneg_left hstrict.le hadj
    · have hz : ∀ v : ℚ,
          calculateSmartHardLimit v sent trend price btcUsd usdInr bal hold p = 0 := by
        intro v
        rw [smartLimit_eq]
        apply max_eq_left
        have hcap : bal * profileMaxTradeFraction p < 0 :=
          mul_neg_of_neg_of_pos hbal (profileMaxTradeFraction_pos p)
        exact le_of_lt (lt_of_le_of_lt (min_le_right _ _) hcap)
      rw [hz v1, hz v2]

lemma sharpeProxy_eq_none (std : List ℚ → ℚ) (ps rets : List ℚ) (lf i : ℕ)
    (h : ps.length ≤ i + lf) : sharpeProxy std ps rets lf i = none := by
  unfold sharpeProxy
  have hfr : futureReturn ps lf i = none := by
    unfold futureReturn
    rw [if_neg (by omega)]
  rw [hfr]

lemma createTarget_getD_eq (std : List ℚ → ℚ) (ps rets : List ℚ) (lf i : ℕ) :
    (createTargetAllocation std ps rets lf).getD i none =
      specTargetLabel std ps rets lf i := by
  simp only [createTargetAllocation, specTargetLabel]
  rw [List.getD_eq_getElem?_getD]
  rcases lt_or_le i ps.length with h | h
  · simp [List.getElem?_map, List.getElem?_range, h]
  · have hr : (List.range ps.length)[i]? = none :=
      List.getElem?_eq_none (by simpa using h)
    have h2 : sharpeProxy std ps rets lf i = none :=
      sharpeProxy_eq_none std ps rets lf i (by omega)
    simp [hr, h2]

lemma npClip_bounds (x : ℚ) : 0 ≤ npClip x 0 (25/100) ∧ npClip x 0 (25/100) ≤ 25/100 :=
  ⟨le_min (le_max_right x 0) (by norm_num), min_le_right _ _⟩

/-- C8: for every training series (and every value the irrational rolling
standard deviation may take), each constructed target label equals
`clip((raw_score − P10)/(P90 − P10) × 0.25, 0, 0.25)` with
`raw_score = future_return/(future_vol + 0.01)` and P10/P90 computed once
over the full training set; every labeled row's target lies in [0, 0.25];
and the trailing `lookforward = 7` rows receive no label (NaN, dropped). -/
theorem claim_C8_target_labels (std : List ℚ → ℚ) (ps rets : List ℚ) :
    (∀ i, (createTargetAllocation std ps rets 7).getD i none =
        specTargetLabel std ps rets 7 i) ∧
    (∀ i v, (createTargetAllocation std ps rets 7).getD i none = some v →
        0 ≤ v ∧ v ≤ 25/100) ∧
    (∀ i, ps.length ≤ i + 7 →
        (createTargetAllocation std ps rets 7).getD i none = none) := by
  refine ⟨fun i => createTarget_getD_eq std ps rets 7 i, ?_, ?_⟩
  · intro i v hv
    rw [createTarget_getD_eq] at hv
    simp only [specTargetLabel] at hv
    obtain ⟨raw, _, hclip⟩ := Option.map_eq_some'.mp hv
    exact hclip ▸ npClip_bounds _
  · intro i hi
    rw [createTarget_getD_eq]
    simp only [specTargetLabel]
    rw [sharpeProxy_eq_none std ps rets 7 i hi]
    rfl

set_option maxHeartbeats 2000000 in
/-- Witness for C8: a nine-row series; rows 2 and beyond are in the trailing
`lookforward` window, so their labels are NaN, and the row-0 label is a
defined value in [0, 0.25]. -/
theorem claim_C8_target_labels_witness :
    (createTargetAllocation (fun _ => 0) ([1, 1, 1, 1, 1, 1, 1, 2, 1])
      ([0, 0, 0, 0, 0, 0, 0, 0, 0]) 7).getD 2 none = none ∧
    (0 ≤ (1/4 : ℚ) ∧ (1/4 : ℚ) ≤ 25/100) :=
  ⟨(claim_C8_target_labels (fun _ => 0) ([1, 1, 1, 1, 1, 1, 1, 2, 1])
      ([0, 0, 0, 0, 0, 0, 0, 0, 0])).2.2 2 (by norm_num),
   (claim_C8_target_labels (fun _ => 0) ([1, 1, 1, 1, 1, 1, 1, 2, 1])
      ([0, 0, 0, 0, 0, 0, 0, 0, 0])).2.1 0 (1/4)
     (by
       rw [createTarget_getD_eq]
       norm_num [specTargetLabel, sharpeProxy, futureReturn, futureVol,
         quantileQ, sortAscending, sortedInsert, npClip, List.range_succ,
         List.filterMap_cons, List.filterMap_nil, List.foldr_cons, List.foldr_nil,
         min_def, max_def])⟩

/-- C7: every Feature Engine output row (a row whose sentiment survives
`dropna()`, i.e. is not NaN) whose 14-period average loss is zero has
sentiment exactly 100; the zero-loss/zero-gain rows are NaN and never reach
the output. -/
theorem claim_C7_zero_loss_sentiment (ps : List ℚ) (i : ℕ) (s : ℚ)
    (hdef : marketSentimentAt ps i = some s) (hloss : avgLoss ps i = some 0) :
    s = 100 := by
  have hguard : 13 ≤ i ∧ i < ps.length := by
    by_contra hg
    unfold avgLoss at hloss
    rw [if_neg hg] at hloss
    exact Option.noConfusion hloss
  obtain ⟨g, hg⟩ : ∃ g, avgGain ps i = some g :=
    ⟨_, by unfold avgGain; rw [if_pos hguard]⟩
  unfold marketSentimentAt at hdef
  rw [hg, hloss] at hdef
  simp only [if_pos rfl] at hdef
  split_ifs at hdef <;> simp_all

/-- Witness for C7: fourteen prices with a single up-move — the average loss
of the window ending at row 13 is 0, the sentiment there is defined, and the
theorem forces it to be 100. -/
theorem claim_C7_zero_loss_sentiment_witness : (100 : ℚ) = 100 :=
  claim_C7_zero_loss_sentiment ([1, 2, 2, 2, 2, 2, 2, 2, 2, 2, 2, 2, 2, 2]) 13 100
    (by norm_num [marketSentimentAt, avgGain, avgLoss, gainVal, lossVal, priceDelta,
      List.range_succ])
    (by norm_num [avgLoss, lossVal, priceDelta, List.range_succ])

/-- Witness for C6 at a concrete input (volatility 0 vs 1). -/
theorem claim_C6_volatility_monotone_witness :
    volatilityFactorL RiskProfile.moderate 1 < volatilityFactorL RiskProfile.moderate 0 ∧
    (0 < volatilityFactorL RiskProfile.moderate 0 ∧
      volatilityFactorL RiskProfile.moderate 0 ≤ 1) ∧
    calculateSmartHardLimit 1 50 0 100000 100000 83 10000 0 RiskProfile.moderate ≤
      calculateSmartHardLimit 0 50 0 100000 100000 83 10000 0 RiskProfile.moderate :=
  claim_C6_volatility_monotone RiskProfile.moderate 50 0 100000 100000 83 10000 0 0 1
    (by norm_num) (by norm_num)

end Innov
